import Mathlib

/-!
Verification of the goxel-curly "model substitution" subsystem against its
natural-language specification.

The development shallowly embeds the C sources:
  * `src/model_manager.c`  — fixed-capacity id → mesh registry;
  * `src/model3d.c`        — procedural mesh factory, OBJ importer,
                             render-time GPU buffer upload;
  * `src/formats/png_slices.c` — layered alpha-compositing PNG-slice
                             exporter and its JSON companion file.

Machine floats are modelled by exact rationals.  Where every intermediate
value of a computation is exactly representable in binary32 (as at the
concrete inputs of the registry, geometry and single-layer compositing
claims) the exact model coincides with the C `float` evaluation; where the
rounding is observable (the two-layer compositing claim, whose effective
alpha `128/255` is not dyadic) the computation is modelled with an explicit
IEEE binary32 round-to-nearest-even step (`fl32`) after every float
operation.  C pointers are modelled by `Option` over an opaque `Nat`
handle; the C `(uint8_t)` cast of a non-negative float is truncation,
modelled by the rational floor.
-/

/-! ## Model manager registry (`src/model_manager.c`)

The registry is a module-level struct
`{ bool initialized; model3d_t *models[256]; const char *names[256]; int count; }`.
Meshes are opaque pointers here, modelled as `Option Nat` (`none` = `NULL`);
the 256-entry pointer array is a list of length 256 indexed by the model id.
The `names` table only feeds logging/GUI and no settled claim, so it is
omitted from the state. -/

def MODEL_MANAGER_MAX_MODELS : Nat := 256

structure ModelManagerState where
  initialized : Bool
  models : List (Option Nat)
  count : Nat
  deriving DecidableEq, Repr

/-- The zero-initialised module state `static ... g_model_manager = {0};`. -/
def g_model_manager_zero : ModelManagerState :=
  { initialized := false
    models := List.replicate MODEL_MANAGER_MAX_MODELS none
    count := 0 }

/-- `model_manager_init`: a second call on an initialized registry only logs
a warning; otherwise the whole struct is zeroed and `initialized` set. -/
def model_manager_init (s : ModelManagerState) : ModelManagerState :=
  if s.initialized then s
  else { g_model_manager_zero with initialized := true }

/-- `model_manager_get`: `NULL` when uninitialized, when `model_id == 0`, or
when `model_id >= MODEL_MANAGER_MAX_MODELS`; otherwise the stored pointer. -/
def model_manager_get (s : ModelManagerState) (model_id : Nat) : Option Nat :=
  if !s.initialized then none
  else if model_id = 0 then none
  else if MODEL_MANAGER_MAX_MODELS ≤ model_id then none
  else (s.models.getD model_id none)

/-- `model_manager_register`: returns the updated state and the C boolean
result.  Mirrors the source: reject when uninitialized, when `model_id == 0`,
or when `model_id >= MODEL_MANAGER_MAX_MODELS`; an occupied slot is
overwritten (only a warning is logged); the pointer is stored and `count`
incremented whenever the stored pointer is non-`NULL`. -/
def model_manager_register (s : ModelManagerState) (model_id : Nat)
    (model : Option Nat) : ModelManagerState × Bool :=
  if !s.initialized then (s, false)
  else if model_id = 0 then (s, false)
  else if MODEL_MANAGER_MAX_MODELS ≤ model_id then (s, false)
  else
    ({ s with
        models := s.models.set model_id model
        count := if model.isSome then s.count + 1 else s.count }, true)

/-- `model_manager_get_count`: `0` when uninitialized, else the counter. -/
def model_manager_get_count (s : ModelManagerState) : Nat :=
  if !s.initialized then 0 else s.count

/-- `model_manager_free`: `NULL`s every slot with index `1 ≤ i < 256`
(slot `0` is left untouched by the loop), clears `initialized` and `count`.
A no-op when the registry is not initialized. -/
def model_manager_free (s : ModelManagerState) : ModelManagerState :=
  if !s.initialized then s
  else
    { s with
        models := s.models.mapIdx fun i m => if i = 0 then m else none
        initialized := false
        count := 0 }

/-- Run a sequence of `(model_id, model)` registration calls, threading the
registry state. -/
def runRegisters (s : ModelManagerState) (ops : List (Nat × Option Nat)) :
    ModelManagerState :=
  ops.foldl (fun s op => (model_manager_register s op.1 op.2).1) s

/-- Number of occupied (non-`NULL`) slots among ids `1..255`. -/
def occupiedSlots (s : ModelManagerState) : Nat :=
  (s.models.drop 1).countP Option.isSome

/-! ## Mesh geometry engine (`src/model3d.c`)

`model_vertex_t` is `{float pos[3]; float normal[3]; float uv[2];
uint8_t color[4];}`; floats are modelled as rationals and the colour
channels as naturals.  `model3d_t` keeps the CPU vertex array, the
`solid`/`cull`/`dirty` flags, and the GPU vertex buffer, modelled as the
(optional) vertex array last handed to `glBufferData`. -/

structure Vec3 where
  x : ℚ
  y : ℚ
  z : ℚ
  deriving DecidableEq, Repr

structure Vec2 where
  u : ℚ
  v : ℚ
  deriving DecidableEq, Repr

structure Color4 where
  r : ℕ
  g : ℕ
  b : ℕ
  a : ℕ
  deriving DecidableEq, Repr

def zero3 : Vec3 := ⟨0, 0, 0⟩

structure ModelVertex where
  pos : Vec3
  normal : Vec3
  uv : Vec2
  color : Color4
  deriving DecidableEq, Repr

/-- A `calloc`-zeroed vertex, the initial content of every vertex slot. -/
def zeroVertex : ModelVertex :=
  { pos := zero3, normal := zero3, uv := ⟨0, 0⟩, color := ⟨0, 0, 0, 0⟩ }

structure Model3d where
  solid : Bool
  cull : Bool
  vertices : List ModelVertex
  dirty : Bool
  /-- Content of the GPU vertex buffer: `none` while no buffer has been
  generated, otherwise the vertex array last uploaded by `glBufferData`. -/
  vertexBuffer : Option (List ModelVertex)
  deriving DecidableEq, Repr

/-- Modelled from the spec: the tables `VERTICES_POSITIONS`,
`FACES_VERTICES` and `FACES_NORMALS` used by `model3d_cube` live in
`goxel.h`, which is not among the shown sources.  Per the spec, the cube is
built from a shared 8-corner table holding the unit-cube corners. -/
def VERTICES_POSITIONS : List (ℤ × ℤ × ℤ) :=
  [(0, 0, 0), (1, 0, 0), (1, 0, 1), (0, 0, 1),
   (0, 1, 0), (1, 1, 0), (1, 1, 1), (0, 1, 1)]

/-- Modelled from the spec: per-face 4-vertex index lists into the corner
table (one quad of corners per cube face), from `goxel.h`. -/
def FACES_VERTICES : List (List Nat) :=
  [[0, 1, 2, 3], [5, 4, 7, 6], [0, 4, 5, 1],
   [2, 6, 7, 3], [1, 5, 6, 2], [0, 3, 7, 4]]

/-- Modelled from the spec: the 6 face normals are the 6 signed unit axis
vectors, from `goxel.h`. -/
def FACES_NORMALS : List (ℤ × ℤ × ℤ) :=
  [(0, -1, 0), (0, 1, 0), (0, 0, -1), (0, 0, 1), (1, 0, 0), (-1, 0, 0)]

/-- One vertex of `model3d_cube`: face `f`, corner-of-triangle `i`.
Mirrors the loop body: `v = {0,1,2,2,3,0}[i]`,
`p = VERTICES_POSITIONS[FACES_VERTICES[f][v]]`, position `(p - 0.5) * 2`,
normal `FACES_NORMALS[f]`, colour opaque white (uv left `calloc`-zero). -/
def cubeVertex (f i : Nat) : ModelVertex :=
  let v := [0, 1, 2, 2, 3, 0].getD i 0
  let p := VERTICES_POSITIONS.getD ((FACES_VERTICES.getD f []).getD v 0) (0, 0, 0)
  let n := FACES_NORMALS.getD f (0, 0, 0)
  { pos := ⟨((p.1 : ℚ) - 1/2) * 2, ((p.2.1 : ℚ) - 1/2) * 2, ((p.2.2 : ℚ) - 1/2) * 2⟩
    normal := ⟨(n.1 : ℚ), (n.2.1 : ℚ), (n.2.2 : ℚ)⟩
    uv := ⟨0, 0⟩
    color := ⟨255, 255, 255, 255⟩ }

/-- `model3d_cube`: 6 faces × 6 vertices (two triangles per face,
triangulated `(0,1,2,2,3,0)`), `solid`, `cull`, `dirty` set, no GPU buffer
yet. -/
def model3d_cube : Model3d :=
  { solid := true
    cull := true
    vertices := (List.range 6).flatMap fun f => (List.range 6).map fun i => cubeVertex f i
    dirty := true
    vertexBuffer := none }

/-- The cross product `cross(v1 - v0, v2 - v0)` computed by
`calculate_normal` before the conditional normalization. -/
def cross_of (v0 v1 v2 : Vec3) : Vec3 :=
  let e1 : Vec3 := ⟨v1.x - v0.x, v1.y - v0.y, v1.z - v0.z⟩
  let e2 : Vec3 := ⟨v2.x - v0.x, v2.y - v0.y, v2.z - v0.z⟩
  ⟨e1.y * e2.z - e1.z * e2.y,
   e1.z * e2.x - e1.x * e2.z,
   e1.x * e2.y - e1.y * e2.x⟩

/-- Squared euclidean norm, the argument the C code passes to `sqrt`. -/
def normSq (n : Vec3) : ℚ :=
  n.x * n.x + n.y * n.y + n.z * n.z

/-- `calculate_normal` from `src/model3d.c`.  The C routine computes
`len = sqrt(normSq n)` with the external `libm` square root and divides by
`len` only when `len > 0.0001f`; `sqrtf` is passed in as the model of that
external function (exact square roots of rationals are irrational in
general). -/
def calculate_normal (sqrtf : ℚ → ℚ) (v0 v1 v2 : Vec3) : Vec3 :=
  let n := cross_of v0 v1 v2
  let len := sqrtf (normSq n)
  if 1/10000 < len then ⟨n.x / len, n.y / len, n.z / len⟩ else n

/-- Soundness of a `sqrtf` model on the below-threshold range: a correctly
rounded square root maps every value `≤ 0.0001²` to a value `≤ 0.0001`
(rounding to nearest can never carry `sqrt x ≤ 0.0001` past the
representable bound). -/
def sqrtfSound (sqrtf : ℚ → ℚ) : Prop :=
  ∀ x : ℚ, 0 ≤ x → x ≤ (1/10000) * (1/10000) → sqrtf x ≤ 1/10000

/-- Three points are collinear when the two edge vectors out of `v0` are
linearly dependent. -/
def collinearPts (v0 v1 v2 : Vec3) : Prop :=
  ∃ a b : ℚ, (a ≠ 0 ∨ b ≠ 0) ∧
    a * (v1.x - v0.x) + b * (v2.x - v0.x) = 0 ∧
    a * (v1.y - v0.y) + b * (v2.y - v0.y) = 0 ∧
    a * (v1.z - v0.z) + b * (v2.z - v0.z) = 0

/-! ### OBJ importer (`model3d_from_obj`)

`tinyobj_parse_obj` is an external collaborator (its sources are not part
of the shown material); the importer is therefore modelled as a function of
the parse outcome: `none` when the parse fails (`err != TINYOBJ_SUCCESS`),
`some attrib` when it succeeds.  `attrib.num_faces` counts triangles, as
the importer itself reads it (`nb_vertices = num_faces * 3`, log message
`"%d triangles"`). -/

structure TinyObjFace where
  v_idx : ℤ
  vt_idx : ℤ
  vn_idx : ℤ
  deriving DecidableEq, Repr

structure TinyObjAttrib where
  vertices : List ℚ
  normals : List ℚ
  texcoords : List ℚ
  num_normals : ℕ
  faces : List TinyObjFace
  num_faces : ℕ
  deriving DecidableEq, Repr

def zeroFace : TinyObjFace := ⟨0, 0, 0⟩

/-- Corner `j` of triangle `i` as filled by the inner loop of
`model3d_from_obj`: position copied by `v_idx`, normal copied by `vn_idx`
when non-negative (else left `calloc`-zero), uv copied by `vt_idx` when
non-negative (else the `(0.5, 0.5)` fallback), colour opaque white.
List reads use the `calloc`-zero default; negative position indices (C
undefined behaviour, never produced by a successful parse) clamp to 0. -/
def objCorner (attrib : TinyObjAttrib) (i j : Nat) : ModelVertex :=
  let f := attrib.faces.getD (i * 3 + j) zeroFace
  let vi := f.v_idx.toNat
  { pos := ⟨attrib.vertices.getD (vi * 3 + 0) 0,
            attrib.vertices.getD (vi * 3 + 1) 0,
            attrib.vertices.getD (vi * 3 + 2) 0⟩
    normal :=
      if 0 ≤ f.vn_idx then
        let ni := f.vn_idx.toNat
        ⟨attrib.normals.getD (ni * 3 + 0) 0,
         attrib.normals.getD (ni * 3 + 1) 0,
         attrib.normals.getD (ni * 3 + 2) 0⟩
      else zero3
    uv :=
      if 0 ≤ f.vt_idx then
        let ti := f.vt_idx.toNat
        ⟨attrib.texcoords.getD (ti * 2 + 0) 0,
         attrib.texcoords.getD (ti * 2 + 1) 0⟩
      else ⟨1/2, 1/2⟩
    color := ⟨255, 255, 255, 255⟩ }

/-- The three vertices produced for triangle `i`: the corner copies,
overwritten with a synthesized flat face normal when the mesh carries no
normals at all or this triangle's first corner has no normal index. -/
def objTriangle (sqrtf : ℚ → ℚ) (attrib : TinyObjAttrib) (i : Nat) :
    List ModelVertex :=
  let c0 := objCorner attrib i 0
  let c1 := objCorner attrib i 1
  let c2 := objCorner attrib i 2
  if attrib.num_normals = 0 ∨ (attrib.faces.getD (i * 3) zeroFace).vn_idx < 0 then
    let n := calculate_normal sqrtf c0.pos c1.pos c2.pos
    [{ c0 with normal := n }, { c1 with normal := n }, { c2 with normal := n }]
  else
    [c0, c1, c2]

/-- `model3d_from_obj` as a function of the external parse outcome:
`NULL` (`none`) when the parse failed or reported zero triangles, otherwise
a fully de-indexed solid mesh with 3 vertices per triangle. -/
def model3d_from_obj (sqrtf : ℚ → ℚ) (parsed : Option TinyObjAttrib) :
    Option Model3d :=
  match parsed with
  | none => none
  | some attrib =>
    if attrib.num_faces = 0 then none
    else
      some { solid := true
             cull := true
             vertices := (List.range attrib.num_faces).flatMap fun i =>
               objTriangle sqrtf attrib i
             dirty := true
             vertexBuffer := none }

/-- The GPU-buffer maintenance step of `model3d_render` (the rest of the
routine sets external GL pipeline state and issues the draw call, which
have no effect on the mesh).  Returns the mesh state after the call and
whether a (re)upload was performed: when `dirty`, the full vertex array is
uploaded by `glBufferData` (generating the buffer first if absent) and
`dirty` is cleared; otherwise the mesh is untouched. -/
def model3d_render (m : Model3d) : Model3d × Bool :=
  if m.dirty then
    ({ m with vertexBuffer := some m.vertices, dirty := false }, true)
  else
    (m, false)

/-! ## PNG-slice exporter (`src/formats/png_slices.c`)

The voxel volume is consumed through the read-only contract
`volume_get_at(volume, iter, pos, c)`, modelled as a total function from an
integer position to an RGBA colour (the iterator is a pure locality
cache).  A layer carries its visibility flag, its optional volume, and the
alpha component of its optional material's `base_color`. -/

structure RGBA where
  r : ℕ
  g : ℕ
  b : ℕ
  a : ℕ
  deriving DecidableEq, Repr

/-- The C cast `(uint8_t)` applied to the non-negative float intermediates
of the blend: truncation toward zero, i.e. the floor. -/
def toU8 (q : ℚ) : ℕ := q.floor.toNat

structure ExpLayer where
  visible : Bool
  volume : Option ((ℤ × ℤ × ℤ) → RGBA)
  /-- `material->base_color[3]` when the layer has a material. -/
  material : Option ℚ

/-- Material alpha resolution: `1.0` when the layer has no material. -/
def layerMaterialAlpha (l : ExpLayer) : ℚ :=
  match l.material with
  | none => 1
  | some a => a

/-- The inner-loop body of `export_as_png_slices` for one voxel colour `c`
against the current raster pixel `dst`: skip when the voxel's native alpha
is 0, otherwise Porter-Duff over with
`final_alpha = (c[3]/255) * material_alpha`, writing back (with `(uint8_t)`
truncation) only when `out_a > 0`.  This is the *exact-arithmetic* model:
it agrees with the C `float` evaluation whenever every intermediate is
exactly representable in binary32 (as at all of claim C3's inputs);
`blend_voxel_f32` below is the same body with each float operation's IEEE
rounding made explicit, for inputs where the rounding is observable. -/
def blend_voxel (c : RGBA) (material_alpha : ℚ) (dst : RGBA) : RGBA :=
  if c.a = 0 then dst
  else
    let src_a : ℚ := ((c.a : ℚ) / 255) * material_alpha
    let dst_a : ℚ := (dst.a : ℚ) / 255
    let out_a : ℚ := src_a + dst_a * (1 - src_a)
    if 0 < out_a then
      { r := toU8 (((c.r : ℚ) * src_a + (dst.r : ℚ) * dst_a * (1 - src_a)) / out_a)
        g := toU8 (((c.g : ℚ) * src_a + (dst.g : ℚ) * dst_a * (1 - src_a)) / out_a)
        b := toU8 (((c.b : ℚ) * src_a + (dst.b : ℚ) * dst_a * (1 - src_a)) / out_a)
        a := toU8 (out_a * 255) }
    else dst

/-- The value of one raster cell after the layer loop of
`export_as_png_slices`: starting from the `calloc`-zero transparent black
pixel, each visible layer with a volume contributes, in declared sequence
order, a `blend_voxel` step with its own material alpha.  (Each raster cell
is touched exactly once per layer, so the per-cell result is this fold.) -/
def composite_cell (layers : List ExpLayer) (pos : ℤ × ℤ × ℤ) : RGBA :=
  layers.foldl
    (fun dst l =>
      if l.visible = false then dst
      else
        match l.volume with
        | none => dst
        | some vol => blend_voxel (vol pos) (layerMaterialAlpha l) dst)
    ⟨0, 0, 0, 0⟩

/-- Spec-side Porter-Duff over, output alpha:
`outAlpha = effectiveAlpha + dstAlpha × (1 − effectiveAlpha)`. -/
def pd_out_alpha (srcA dstA : ℚ) : ℚ :=
  srcA + dstA * (1 - srcA)

/-- Spec-side Porter-Duff over, one colour channel:
`(srcChannel × effectiveAlpha + dstChannel × dstAlpha × (1 − effectiveAlpha)) / outAlpha`. -/
def pd_channel (sc dc srcA dstA : ℚ) : ℚ :=
  (sc * srcA + dc * dstA * (1 - srcA)) / pd_out_alpha srcA dstA

/-! ### IEEE binary32 rounding model

The compositor runs on C `float`s.  Each C arithmetic operation is
correctly rounded: it returns the round-to-nearest-even binary32 value of
the exact result of the operation on its (exactly held) operands
(`FLT_EVAL_METHOD == 0`).  `fl32` below is that rounding as a function on
exact rationals, for values in the binary32 normal range — which covers
every quantity arising in the compositing claims (all magnitudes lie in
`[2⁻³², 2¹⁶]` or are exactly zero); subnormals and overflow are never
reached and are not modelled.  The mantissa/exponent arithmetic is done on
the numerator and denominator by the pure-`Nat` helper `fl32nat`. -/

/-- Floor of the base-2 logarithm, by fuel recursion (the fuel `n` bounds
the recursion depth, which is `log2 n`); agrees with the mathematical
`⌊log2 n⌋` for every `n ≥ 1`. -/
def natLog2Fuel : Nat → Nat → Nat
  | 0, _ => 0
  | f + 1, n => if 2 ≤ n then natLog2Fuel f (n / 2) + 1 else 0

def natLog2 (n : Nat) : Nat := natLog2Fuel n n

/-- Round the fraction `num / den` (with `den ≠ 0`) to the nearest natural
number, ties to even. -/
def rneNat (num den : Nat) : Nat :=
  let q := num / den
  let r := num % den
  if 2 * r < den then q
  else if den < 2 * r then q + 1
  else if q % 2 = 0 then q else q + 1

/-- Round-to-nearest-even binary32 rounding of the positive fraction
`n / d`, returned as `(m, p, q)` with value `m * 2^p / 2^q`: the fraction is
scaled by the power of two that puts it in `[2²³, 2²⁴)` (`a` and `b` are
the floor log2 of `n` and `d`, and the comparison `d * 2^a ≤ n * 2^b`
decides whether `⌊log2 (n/d)⌋` is `a - b` or `a - b - 1`), and the scaled
value is rounded to the nearest integer mantissa, ties to even. -/
def fl32nat (n d : Nat) : Nat × Nat × Nat :=
  let a := natLog2 n
  let b := natLog2 d
  let e0 := if d * 2 ^ a ≤ n * 2 ^ b then 23 else 24
  if b + e0 ≤ a then
    (rneNat n (d * 2 ^ (a - b - e0)), a - b - e0, 0)
  else
    (rneNat (n * 2 ^ (b + e0 - a)) d, 0, b + e0 - a)

/-- Round-to-nearest-even binary32 rounding of an exact rational in the
normal range (or zero). -/
def fl32 (q : ℚ) : ℚ :=
  if q = 0 then 0
  else
    let t := fl32nat q.num.natAbs q.den
    let mag : ℚ := (t.1 : ℚ) * 2 ^ t.2.1 / 2 ^ t.2.2
    if q < 0 then -mag else mag

/-- The inner-loop body of `export_as_png_slices` with each C `float`
operation's IEEE binary32 rounding made explicit: identical structure to
`blend_voxel`, with `fl32` applied to the exact result of every division,
multiplication, subtraction and addition, in the C evaluation order
(`x * y * z` associates left; `(1.0f - src_a)` is one rounded
subexpression). -/
def blend_voxel_f32 (c : RGBA) (material_alpha : ℚ) (dst : RGBA) : RGBA :=
  if c.a = 0 then dst
  else
    let src_a : ℚ := fl32 (fl32 ((c.a : ℚ) / 255) * material_alpha)
    let dst_a : ℚ := fl32 ((dst.a : ℚ) / 255)
    let one_minus : ℚ := fl32 (1 - src_a)
    let out_a : ℚ := fl32 (src_a + fl32 (dst_a * one_minus))
    if 0 < out_a then
      { r := toU8 (fl32 (fl32 (fl32 ((c.r : ℚ) * src_a) +
                fl32 (fl32 ((dst.r : ℚ) * dst_a) * one_minus)) / out_a))
        g := toU8 (fl32 (fl32 (fl32 ((c.g : ℚ) * src_a) +
                fl32 (fl32 ((dst.g : ℚ) * dst_a) * one_minus)) / out_a))
        b := toU8 (fl32 (fl32 (fl32 ((c.b : ℚ) * src_a) +
                fl32 (fl32 ((dst.b : ℚ) * dst_a) * one_minus)) / out_a))
        a := toU8 (fl32 (out_a * 255)) }
    else dst

/-- One raster cell of the layer loop with binary32 rounding: `composite_cell`
with `blend_voxel_f32` in place of the exact-arithmetic blend. -/
def composite_cell_f32 (layers : List ExpLayer) (pos : ℤ × ℤ × ℤ) : RGBA :=
  layers.foldl
    (fun dst l =>
      if l.visible = false then dst
      else
        match l.volume with
        | none => dst
        | some vol => blend_voxel_f32 (vol pos) (layerMaterialAlpha l) dst)
    ⟨0, 0, 0, 0⟩

/-- The bounding box entries `export_as_png_slices` reads: the three
diagonal half-extents `box[0][0]`, `box[1][1]`, `box[2][2]` and the centre
row `box[3][0..2]`. -/
structure ExportBox where
  hw : ℚ
  hh : ℚ
  hd : ℚ
  cx : ℚ
  cy : ℚ
  cz : ℚ
  deriving DecidableEq, Repr

/-- C float-to-`int` conversion: truncation toward zero. -/
def intTrunc (q : ℚ) : ℤ :=
  if q < 0 then q.ceil else q.floor

/-- The raster built by the exporter: dimensions `w = box[0][0]*2`,
`h = box[1][1]*2`, `d = box[2][2]*2` (float-to-int truncation) and the
per-cell composited pixels.  The flat buffer packs cell `(x,y,z)` at byte
index `(y*w*d + z*w + x)*4`, i.e. a sheet of `d` width-`w` tiles per pixel
row, which `img_write` emits as a `(w*d) × h` image. -/
structure Raster where
  width : ℤ
  height : ℤ
  depth : ℤ
  pix : (ℤ × ℤ × ℤ) → RGBA

/-- The JSON companion file content: the three dimension entries, in the
order written, plus the rotations array. -/
structure CompanionJson where
  width : ℤ
  height : ℤ
  depth : ℤ
  rotations : List String
  deriving DecidableEq, Repr

/-- `write_json_companion(json_path, width, height, depth, ...)`: the C
routine prints `"width": width`, then `"height": depth`, then
`"depth": height` — the `height` and `depth` arguments land under each
other's key.  An empty rotation list degrades to the single entry `"0"`. -/
def write_json_companion (width height depth : ℤ)
    (rotation_strings : List String) : CompanionJson :=
  { width := width
    height := depth
    depth := height
    rotations := if 0 < rotation_strings.length then rotation_strings else ["0"] }

/-- `export_as_png_slices`, modelled as the data it produces: the composited
raster, the `(w*d, h)` dimensions handed to `img_write`, and the companion
JSON written with the current `w, h, d` (merging rotation tags previously
present at the JSON path). -/
def export_as_png_slices (box : ExportBox) (layers : List ExpLayer)
    (existing_rotations : List String) : Raster × (ℤ × ℤ) × CompanionJson :=
  let w := intTrunc (box.hw * 2)
  let h := intTrunc (box.hh * 2)
  let d := intTrunc (box.hd * 2)
  let start : ℤ × ℤ × ℤ :=
    (intTrunc (box.cx - box.hw), intTrunc (box.cy - box.hh), intTrunc (box.cz - box.hd))
  ({ width := w
     height := h
     depth := d
     pix := fun p => composite_cell layers (start.1 + p.1, start.2.1 + p.2.1, start.2.2 + p.2.2) },
   (w * d, h),
   write_json_companion w h d existing_rotations)

/-! ## Concrete test fixtures -/

/-- A volume whose only non-empty voxel, at the origin, is native opaque
red `(255,0,0,255)`. -/
def redVol : (ℤ × ℤ × ℤ) → RGBA :=
  fun p => if p = (0, 0, 0) then ⟨255, 0, 0, 255⟩ else ⟨0, 0, 0, 0⟩

/-- A volume whose only non-empty voxel, at the origin, is half-alpha green
`(0,255,0,128)`. -/
def greenVol : (ℤ × ℤ × ℤ) → RGBA :=
  fun p => if p = (0, 0, 0) then ⟨0, 255, 0, 128⟩ else ⟨0, 0, 0, 0⟩

/-- Visible single-red-voxel layer with a material of alpha `1.0`. -/
def redLayerFull : ExpLayer := ⟨true, some redVol, some 1⟩

/-- Visible single-red-voxel layer with a material of alpha `0.5`. -/
def redLayerHalf : ExpLayer := ⟨true, some redVol, some (1/2)⟩

/-- Visible single-red-voxel layer with no material (alpha defaults to 1). -/
def redLayer : ExpLayer := ⟨true, some redVol, none⟩

/-- Visible half-alpha-green-voxel layer with no material. -/
def greenLayer : ExpLayer := ⟨true, some greenVol, none⟩

/-- A bounding box with half-extents `(1/2, 1, 3/2)`, giving raster
dimensions `w = 1`, `h = 2`, `d = 3`. -/
def cexBox : ExportBox := ⟨1/2, 1, 3/2, 0, 0, 0⟩

/-- The 6 signed unit axis vectors. -/
def axisNormals : List Vec3 :=
  [⟨1, 0, 0⟩, ⟨-1, 0, 0⟩, ⟨0, 1, 0⟩, ⟨0, -1, 0⟩, ⟨0, 0, 1⟩, ⟨0, 0, -1⟩]

/-- A model of `sqrtf` for the degenerate-normal counterexample: on the
input actually tested, `normSq = 2⁻³²`, it returns the exact square root
`2⁻¹⁶` (`65536 * 2⁻³² = 2⁻¹⁶`). -/
def cexSqrt (x : ℚ) : ℚ := 65536 * x

/-- An importer parse result with zero triangles (`attrib.num_faces == 0`). -/
def emptyAttrib : TinyObjAttrib :=
  { vertices := [], normals := [], texcoords := [], num_normals := 0,
    faces := [], num_faces := 0 }

/-- Linearly dependent edge vectors have a vanishing cross product: the
algebraic fact behind the degenerate-triangle case. -/
theorem collinear_cross_eq_zero (v0 v1 v2 : Vec3) (h : collinearPts v0 v1 v2) :
    cross_of v0 v1 v2 = zero3 := by
  obtain ⟨a, b, hab, hx, hy, hz⟩ := h
  show Vec3.mk
      ((v1.y - v0.y) * (v2.z - v0.z) - (v1.z - v0.z) * (v2.y - v0.y))
      ((v1.z - v0.z) * (v2.x - v0.x) - (v1.x - v0.x) * (v2.z - v0.z))
      ((v1.x - v0.x) * (v2.y - v0.y) - (v1.y - v0.y) * (v2.x - v0.x)) = ⟨0, 0, 0⟩
  rcases hab with ha | hb
  · simp only [Vec3.mk.injEq]
    refine ⟨mul_left_cancel₀ ha ?_, mul_left_cancel₀ ha ?_, mul_left_cancel₀ ha ?_⟩
    · linear_combination (v2.z - v0.z) * hy - (v2.y - v0.y) * hz
    · linear_combination (v2.x - v0.x) * hz - (v2.z - v0.z) * hx
    · linear_combination (v2.y - v0.y) * hx - (v2.x - v0.x) * hy
  · simp only [Vec3.mk.injEq]
    refine ⟨mul_left_cancel₀ hb ?_, mul_left_cancel₀ hb ?_, mul_left_cancel₀ hb ?_⟩
    · linear_combination (v1.y - v0.y) * hz - (v1.z - v0.z) * hy
    · linear_combination (v1.z - v0.z) * hx - (v1.x - v0.x) * hz
    · linear_combination (v1.x - v0.x) * hy - (v1.y - v0.y) * hx

/-- The squared norm is non-negative. -/
theorem normSq_nonneg (n : Vec3) : 0 ≤ normSq n := by
  unfold normSq
  nlinarith [mul_self_nonneg n.x, mul_self_nonneg n.y, mul_self_nonneg n.z]

/-! ## Claim theorems -/

set_option maxRecDepth 8192

/-- Claim C1: the claim states that `count()` equals the number of distinct
successfully registered ids, with overwrites not inflating the count.  The
code instead increments `count` on every non-`NULL` registration: after
`init(); register(1, m); register(1, m2)` (both meshes non-`NULL`),
`count()` returns `2` while only the single id `1` is occupied — so the
count exceeds the number of distinct registered ids.  This also contradicts
the header documentation, which says `register` returns `false` when the id
is "already in use" and that `get_count` returns "the count of registered
models". -/
theorem C1_count_overcounts_on_overwrite :
    model_manager_get_count (runRegisters (model_manager_init g_model_manager_zero)
      [(1, some 10), (1, some 20)]) = 2 ∧
    occupiedSlots (runRegisters (model_manager_init g_model_manager_zero)
      [(1, some 10), (1, some 20)]) = 1 := by
  decide

/-- Claim C9: on an uninitialized registry every operation is a safe no-op:
`get` returns `NULL` for every id, `count` returns `0`, and `register`
returns `false` without touching the state. -/
theorem C9_uninitialized_noop (s : ModelManagerState) (h : s.initialized = false) :
    (∀ model_id, model_manager_get s model_id = none) ∧
    model_manager_get_count s = 0 ∧
    (∀ model_id model, model_manager_register s model_id model = (s, false)) := by
  refine ⟨fun model_id => ?_, ?_, fun model_id model => ?_⟩ <;>
    simp [model_manager_get, model_manager_get_count, model_manager_register, h]

/-- Claim C9 witness: the state after `init(); free()` is uninitialized, and
the three no-op properties hold there at the concrete id 7. -/
theorem C9_uninitialized_noop_witness :
    model_manager_get (model_manager_free (model_manager_init g_model_manager_zero)) 7 = none ∧
    model_manager_get_count (model_manager_free (model_manager_init g_model_manager_zero)) = 0 ∧
    model_manager_register (model_manager_free (model_manager_init g_model_manager_zero)) 7 (some 3) =
      (model_manager_free (model_manager_init g_model_manager_zero), false) := by
  have h := C9_uninitialized_noop
    (model_manager_free (model_manager_init g_model_manager_zero)) (by rfl)
  exact ⟨h.1 7, h.2.1, h.2.2 7 (some 3)⟩

/-- Claim C10: on an initialized registry, registering a `NULL` mesh at any
id in `[1,255]` succeeds (returns `true`), leaves `count()` unchanged, and a
subsequent `get` of that id returns `NULL`. -/
theorem C10_register_null (s : ModelManagerState) (model_id : Nat)
    (hinit : s.initialized = true) (h1 : 1 ≤ model_id) (h255 : model_id ≤ 255) :
    (model_manager_register s model_id none).2 = true ∧
    model_manager_get_count (model_manager_register s model_id none).1 =
      model_manager_get_count s ∧
    model_manager_get (model_manager_register s model_id none).1 model_id = none := by
  have hid0 : ¬ model_id = 0 := by omega
  have hmax : ¬ MODEL_MANAGER_MAX_MODELS ≤ model_id := by
    unfold MODEL_MANAGER_MAX_MODELS
    omega
  refine ⟨?_, ?_, ?_⟩
  · simp [model_manager_register, hinit, hid0, hmax]
  · simp [model_manager_register, model_manager_get_count, hinit, hid0, hmax]
  · simp only [model_manager_register, model_manager_get, hinit, hid0, hmax,
      Bool.not_true, if_neg, if_false, Bool.false_eq_true, ite_false]
    rcases Nat.lt_or_ge model_id s.models.length with hlen | hlen
    · simp [hinit, hid0, hmax, List.getD_eq_getElem?_getD, List.getElem?_set_self, hlen]
    · simp [hinit, hid0, hmax, List.getD_eq_getElem?_getD, List.getElem?_eq_none, hlen]

/-- Claim C10 witness: on the freshly initialized registry, registering
`NULL` at id 5 succeeds, keeps the count at its old value, and `get 5`
stays `NULL`. -/
theorem C10_register_null_witness :
    (model_manager_register (model_manager_init g_model_manager_zero) 5 none).2 = true ∧
    model_manager_get_count
        (model_manager_register (model_manager_init g_model_manager_zero) 5 none).1 =
      model_manager_get_count (model_manager_init g_model_manager_zero) ∧
    model_manager_get
      (model_manager_register (model_manager_init g_model_manager_zero) 5 none).1 5 = none :=
  C10_register_null (model_manager_init g_model_manager_zero) 5 (by rfl)
    (by omega) (by omega)

/-- Claim C5: the OBJ importer produces no model both when the underlying
parse fails and when the parse succeeds with zero triangles; in neither
case is a default shape substituted (the result is `none`, not some default
mesh). -/
theorem C5_import_failure_paths (sqrtf : ℚ → ℚ) :
    model3d_from_obj sqrtf none = none ∧
    ∀ attrib : TinyObjAttrib, attrib.num_faces = 0 →
      model3d_from_obj sqrtf (some attrib) = none := by
  refine ⟨rfl, fun attrib h => ?_⟩
  simp [model3d_from_obj, h]

/-- Claim C6 (amended): when `calculate_normal`'s cross product has squared
norm at most `0.0001²` — so any sound model of `sqrtf` keeps the length at
or below the `0.0001` threshold — the normal is left as the *unnormalized
cross product* (not, as the claim stated, necessarily the zero vector); it
is the zero vector exactly in the degenerate case, in particular for three
collinear vertices, and no division (hence no NaN) occurs. -/
theorem C6_below_threshold_unnormalized (sqrtf : ℚ → ℚ) (hs : sqrtfSound sqrtf)
    (v0 v1 v2 : Vec3)
    (hsmall : normSq (cross_of v0 v1 v2) ≤ (1/10000) * (1/10000)) :
    calculate_normal sqrtf v0 v1 v2 = cross_of v0 v1 v2 ∧
    (collinearPts v0 v1 v2 → calculate_normal sqrtf v0 v1 v2 = zero3) := by
  have hle : sqrtf (normSq (cross_of v0 v1 v2)) ≤ 1/10000 :=
    hs _ (normSq_nonneg _) hsmall
  have hmain : calculate_normal sqrtf v0 v1 v2 = cross_of v0 v1 v2 := by
    unfold calculate_normal
    rw [if_neg (not_lt.mpr hle)]
  exact ⟨hmain, fun hcol => hmain.trans (collinear_cross_eq_zero v0 v1 v2 hcol)⟩

/-- Claim C6 witness: with the trivial sound `sqrtf` model and the three
collinear vertices `(0,0,0)`, `(1,0,0)`, `(2,0,0)`, the computed normal is
the zero vector. -/
theorem C6_below_threshold_unnormalized_witness :
    calculate_normal (fun _ => 0) ⟨0, 0, 0⟩ ⟨1, 0, 0⟩ ⟨2, 0, 0⟩ = zero3 := by
  have h := C6_below_threshold_unnormalized (fun _ => 0)
    (fun x h0 hx => by norm_num) ⟨0, 0, 0⟩ ⟨1, 0, 0⟩ ⟨2, 0, 0⟩
    (by norm_num [cross_of, normSq])
  exact h.2 ⟨2, -1, Or.inl (by norm_num), by norm_num, by norm_num, by norm_num⟩

/-- Claim C6 counterexample: the claim "below the threshold the normal is
left as the zero vector" is false.  For the triangle `(0,0,0)`,
`(1/256,0,0)`, `(0,1/256,0)` the cross product is `(0,0,2⁻¹⁶)` with squared
norm `2⁻³² ≤ 0.0001²`; `cexSqrt` returns its exact square root `2⁻¹⁶`
there, which is below the `0.0001` threshold, so no normalization happens —
and the resulting normal is the nonzero vector `(0,0,2⁻¹⁶)`. -/
theorem C6_zero_vector_claim_false :
    normSq (cross_of ⟨0, 0, 0⟩ ⟨1/256, 0, 0⟩ ⟨0, 1/256, 0⟩) ≤ (1/10000) * (1/10000) ∧
    cexSqrt (normSq (cross_of ⟨0, 0, 0⟩ ⟨1/256, 0, 0⟩ ⟨0, 1/256, 0⟩)) *
        cexSqrt (normSq (cross_of ⟨0, 0, 0⟩ ⟨1/256, 0, 0⟩ ⟨0, 1/256, 0⟩)) =
      normSq (cross_of ⟨0, 0, 0⟩ ⟨1/256, 0, 0⟩ ⟨0, 1/256, 0⟩) ∧
    cexSqrt (normSq (cross_of ⟨0, 0, 0⟩ ⟨1/256, 0, 0⟩ ⟨0, 1/256, 0⟩)) ≤ 1/10000 ∧
    calculate_normal cexSqrt ⟨0, 0, 0⟩ ⟨1/256, 0, 0⟩ ⟨0, 1/256, 0⟩ = ⟨0, 0, 1/65536⟩ ∧
    (⟨0, 0, 1/65536⟩ : Vec3) ≠ zero3 := by
  refine ⟨by norm_num [cross_of, normSq], by norm_num [cross_of, normSq, cexSqrt],
    by norm_num [cross_of, normSq, cexSqrt], ?_, by simp [zero3, Vec3.mk.injEq]⟩
  unfold calculate_normal
  rw [if_neg (by norm_num [cross_of, normSq, cexSqrt])]
  norm_num [cross_of, Vec3.mk.injEq]

/-- Claim C8: `model3d_render` (re)uploads the full vertex array to the GPU
buffer exactly when the mesh is dirty at entry, clears `dirty` only after
that upload, and leaves a non-dirty mesh entirely untouched (no upload,
`dirty` still false). -/
theorem C8_render_upload_iff_dirty (m : Model3d) :
    ((model3d_render m).2 = true ↔ m.dirty = true) ∧
    ((model3d_render m).2 = true →
      (model3d_render m).1.vertexBuffer = some m.vertices ∧
      (model3d_render m).1.dirty = false) ∧
    (m.dirty = false → model3d_render m = (m, false)) := by
  by_cases hd : m.dirty = true
  · simp [model3d_render, hd]
  · simp only [Bool.not_eq_true] at hd
    simp [model3d_render, hd]

set_option maxHeartbeats 3200000 in
/-- Claim C7: `model3d_cube()` has exactly 36 vertices, every position lies
in `[-1,1]³`, every vertex normal is one of the 6 signed unit axis vectors,
and each of those 6 vectors appears on exactly 6 vertices. -/
theorem C7_cube_properties :
    model3d_cube.vertices.length = 36 ∧
    (∀ v ∈ model3d_cube.vertices,
      -1 ≤ v.pos.x ∧ v.pos.x ≤ 1 ∧ -1 ≤ v.pos.y ∧ v.pos.y ≤ 1 ∧
      -1 ≤ v.pos.z ∧ v.pos.z ≤ 1) ∧
    (∀ v ∈ model3d_cube.vertices, v.normal ∈ axisNormals) ∧
    (∀ n ∈ axisNormals, (model3d_cube.vertices.map fun v => v.normal).count n = 6) := by
  refine ⟨by decide, ?_, ?_, ?_⟩
  · norm_num [model3d_cube, cubeVertex, VERTICES_POSITIONS, FACES_VERTICES,
      FACES_NORMALS, List.range_succ, List.forall_mem_cons]
  · norm_num [model3d_cube, cubeVertex, VERTICES_POSITIONS, FACES_VERTICES,
      FACES_NORMALS, axisNormals, List.range_succ, List.forall_mem_cons,
      Vec3.mk.injEq]
  · simp only [axisNormals, List.forall_mem_cons, List.forall_mem_nil, and_true]
    refine ⟨?_, ?_, ?_, ?_, ?_, ?_⟩ <;>
      norm_num [model3d_cube, cubeVertex, VERTICES_POSITIONS, FACES_VERTICES,
        FACES_NORMALS, List.range_succ, List.count_cons, Vec3.mk.injEq]

/-- Claim C3: a single visible layer whose only voxel is native
`(255,0,0,255)` composites to exactly `(255,0,0,255)` at material alpha
`1.0` and to `(255,0,0,127)` — within 1 of the claimed 128, i.e. up to
rounding — at material alpha `0.5`; and in general every non-empty voxel is
composited by the Porter-Duff over formula (with `(uint8_t)` truncation),
the write being skipped when the output alpha is `0`. -/
theorem C3_alpha_over :
    composite_cell [redLayerFull] (0, 0, 0) = ⟨255, 0, 0, 255⟩ ∧
    composite_cell [redLayerHalf] (0, 0, 0) = ⟨255, 0, 0, 127⟩ ∧
    ((128 : ℤ) - 127).natAbs ≤ 1 ∧
    (∀ (c : RGBA) (ma : ℚ) (dst : RGBA), c.a ≠ 0 →
      (0 < pd_out_alpha ((c.a : ℚ) / 255 * ma) ((dst.a : ℚ) / 255) →
        blend_voxel c ma dst =
          ⟨toU8 (pd_channel (c.r : ℚ) (dst.r : ℚ) ((c.a : ℚ) / 255 * ma) ((dst.a : ℚ) / 255)),
           toU8 (pd_channel (c.g : ℚ) (dst.g : ℚ) ((c.a : ℚ) / 255 * ma) ((dst.a : ℚ) / 255)),
           toU8 (pd_channel (c.b : ℚ) (dst.b : ℚ) ((c.a : ℚ) / 255 * ma) ((dst.a : ℚ) / 255)),
           toU8 (pd_out_alpha ((c.a : ℚ) / 255 * ma) ((dst.a : ℚ) / 255) * 255)⟩) ∧
      (pd_out_alpha ((c.a : ℚ) / 255 * ma) ((dst.a : ℚ) / 255) = 0 →
        blend_voxel c ma dst = dst)) := by
  refine ⟨?_, ?_, by decide, ?_⟩
  · norm_num [composite_cell, blend_voxel, layerMaterialAlpha, toU8, Rat.floor_def',
      redLayerFull, redVol]
    all_goals decide
  · norm_num [composite_cell, blend_voxel, layerMaterialAlpha, toU8, Rat.floor_def',
      redLayerHalf, redVol]
    all_goals decide
  · intro c ma dst hca
    simp only [blend_voxel, pd_channel, pd_out_alpha, if_neg hca]
    constructor
    · intro hpos
      rw [if_pos hpos]
    · intro hzero
      rw [if_neg (by rw [hzero]; exact lt_irrefl 0)]

/-- The binary32 mantissa/exponent roundings arising in the two-layer
composite, each checked by kernel evaluation of the pure-`Nat` rounding. -/
theorem fl32nat_facts :
    fl32nat 1 1 = (8388608, 0, 23) ∧
    fl32nat 255 1 = (16711680, 0, 16) ∧
    fl32nat 128 1 = (8388608, 0, 16) ∧
    fl32nat 128 255 = (8421505, 0, 24) ∧
    fl32nat 8421505 16777216 = (8421505, 0, 24) ∧
    fl32nat 8355711 16777216 = (16711422, 0, 25) ∧
    fl32nat 2130706305 16777216 = (16646143, 0, 17) ∧
    fl32nat 16646143 131072 = (16646143, 0, 17) ∧
    fl32nat 2147483775 16777216 = (8388608, 0, 16) ∧
    fl32nat 2147483648 8421505 = (16711679, 0, 16) ∧
    fl32nat 1069531135 8388608 = (16711424, 0, 17) := by
  decide

/-- Opaque red over the cleared pixel: every float operation is exact, the
result is `(255,0,0,255)`. -/
theorem f32_red_over_clear :
    blend_voxel_f32 ⟨255, 0, 0, 255⟩ 1 ⟨0, 0, 0, 0⟩ = ⟨255, 0, 0, 255⟩ := by
  obtain ⟨h1, h255, h128, hA, hB, hE, hG, hH, hI, hK, hM⟩ := fl32nat_facts
  norm_num [blend_voxel_f32, fl32, h1, h255, toU8, Rat.floor_def']
  all_goals simp only [Int.reduceToNat]

/-- Half-alpha green over the opaque red pixel in binary32:
`fl(128/255) = 8421505·2⁻²⁴` rounds *up*, so the red channel
`255·(1 − fl(128/255))` evaluates to `16646143·2⁻¹⁷ = 126.9999923…`, which
the `(uint8_t)` cast truncates to `126` (exact arithmetic would give `127`);
the green channel `255·fl(128/255)` rounds to exactly `128`. -/
theorem f32_green_over_red :
    blend_voxel_f32 ⟨0, 255, 0, 128⟩ 1 ⟨255, 0, 0, 255⟩ = ⟨126, 128, 0, 255⟩ := by
  obtain ⟨h1, h255, h128, hA, hB, hE, hG, hH, hI, hK, hM⟩ := fl32nat_facts
  norm_num [blend_voxel_f32, fl32, h1, h255, h128, hA, hB, hE, hG, hH, hI,
    toU8, Rat.floor_def']
  all_goals simp only [Int.reduceToNat]
  all_goals norm_num

/-- Half-alpha green over the cleared pixel in binary32: the pixel becomes
`(0,254,0,128)` (the green channel `fl(fl(255·fl(128/255)) / fl(128/255))`
lands just below 255 and truncates to 254). -/
theorem f32_green_over_clear :
    blend_voxel_f32 ⟨0, 255, 0, 128⟩ 1 ⟨0, 0, 0, 0⟩ = ⟨0, 254, 0, 128⟩ := by
  obtain ⟨h1, h255, h128, hA, hB, hE, hG, hH, hI, hK, hM⟩ := fl32nat_facts
  norm_num [blend_voxel_f32, fl32, h1, h255, h128, hA, hB, hE, hI, hK,
    toU8, Rat.floor_def']
  all_goals simp only [Int.reduceToNat]
  all_goals norm_num

/-- Opaque red over the half-green pixel: the source alpha is 1, so the
destination contribution is annihilated and the pixel becomes
`(255,0,0,255)` exactly. -/
theorem f32_red_over_green :
    blend_voxel_f32 ⟨255, 0, 0, 255⟩ 1 ⟨0, 254, 0, 128⟩ = ⟨255, 0, 0, 255⟩ := by
  obtain ⟨h1, h255, h128, hA, hB, hE, hG, hH, hI, hK, hM⟩ := fl32nat_facts
  norm_num [blend_voxel_f32, fl32, h1, h255, hA, hM, toU8, Rat.floor_def']
  all_goals simp only [Int.reduceToNat]

/-- Claim C4 counterexample: the claim that bottom-then-top compositing of
opaque red under half-alpha green "yields the Porter-Duff over of green
over red" fails as an exact equality: the exact Porter-Duff red channel is
`toU8 (255·(127/255)) = 127`, but the binary32 program truncates its red
channel to `126` because `fl(128/255)` rounds up, so the composited pixel
`(126,128,0,255)` differs from the exact Porter-Duff pixel
`(127,128,0,255)`. -/
theorem C4_exact_over_equality_false :
    composite_cell_f32 [redLayer, greenLayer] (0, 0, 0) = ⟨126, 128, 0, 255⟩ ∧
    toU8 (pd_channel 0 255 (128/255) 1) = 127 ∧
    composite_cell_f32 [redLayer, greenLayer] (0, 0, 0) ≠
      ⟨toU8 (pd_channel 0 255 (128/255) 1),
       toU8 (pd_channel 255 0 (128/255) 1),
       toU8 (pd_channel 0 0 (128/255) 1),
       toU8 (pd_out_alpha (128/255) 1 * 255)⟩ := by
  have hfw : composite_cell_f32 [redLayer, greenLayer] (0, 0, 0) = ⟨126, 128, 0, 255⟩ := by
    norm_num [composite_cell_f32, layerMaterialAlpha, redLayer, greenLayer,
      redVol, greenVol, f32_red_over_clear, f32_green_over_red]
  have hpd : toU8 (pd_channel 0 255 (128/255) 1) = 127 := by
    norm_num [toU8, pd_channel, pd_out_alpha, Rat.floor_def']
    decide
  refine ⟨hfw, hpd, ?_⟩
  rw [hfw, hpd]
  simp

/-- Claim C4 (amended): compositing the opaque-red-bottom, half-alpha-green
-top pair in declared bottom-then-top order yields the binary32 evaluation
of the Porter-Duff over of green over red, `(126,128,0,255)` — each channel
within 1 of the exact-arithmetic Porter-Duff value (the red channel
truncates to 126 where exact arithmetic gives 127) — and that output
differs from the output of compositing the same two layers in the reverse
order. -/
theorem C4_layer_order_f32 :
    composite_cell_f32 [redLayer, greenLayer] (0, 0, 0) = ⟨126, 128, 0, 255⟩ ∧
    ((toU8 (pd_channel 0 255 (128/255) 1) : ℤ) - 126).natAbs ≤ 1 ∧
    ((toU8 (pd_channel 255 0 (128/255) 1) : ℤ) - 128).natAbs ≤ 1 ∧
    ((toU8 (pd_channel 0 0 (128/255) 1) : ℤ) - 0).natAbs ≤ 1 ∧
    ((toU8 (pd_out_alpha (128/255) 1 * 255) : ℤ) - 255).natAbs ≤ 1 ∧
    composite_cell_f32 [redLayer, greenLayer] (0, 0, 0) ≠
      composite_cell_f32 [greenLayer, redLayer] (0, 0, 0) := by
  have hfw : composite_cell_f32 [redLayer, greenLayer] (0, 0, 0) = ⟨126, 128, 0, 255⟩ := by
    norm_num [composite_cell_f32, layerMaterialAlpha, redLayer, greenLayer,
      redVol, greenVol, f32_red_over_clear, f32_green_over_red]
  have hrev : composite_cell_f32 [greenLayer, redLayer] (0, 0, 0) = ⟨255, 0, 0, 255⟩ := by
    norm_num [composite_cell_f32, layerMaterialAlpha, redLayer, greenLayer,
      redVol, greenVol, f32_green_over_clear, f32_red_over_green]
  refine ⟨hfw, ?_, ?_, ?_, ?_, ?_⟩
  · norm_num [toU8, pd_channel, pd_out_alpha, Rat.floor_def']
  · norm_num [toU8, pd_channel, pd_out_alpha, Rat.floor_def']
  · norm_num [toU8, pd_channel, pd_out_alpha, Rat.floor_def']
  · norm_num [toU8, pd_channel, pd_out_alpha, Rat.floor_def']
  · rw [hfw, hrev]
    simp

/-- Claim C2 counterexample: for the box with half-extents `(1/2, 1, 3/2)`
(raster `w = 1, h = 2, d = 3`) the companion JSON records `height = 3`,
which is the raster's *depth*, not its height `2`; likewise `depth = 2` is
the raster's height. -/
theorem C2_json_height_mismatch :
    (export_as_png_slices cexBox [] []).1.height = 2 ∧
    (export_as_png_slices cexBox [] []).1.depth = 3 ∧
    ((export_as_png_slices cexBox [] []).2.2).height = 3 ∧
    ((export_as_png_slices cexBox [] []).2.2).depth = 2 ∧
    ((export_as_png_slices cexBox [] []).2.2).height ≠
      (export_as_png_slices cexBox [] []).1.height := by
  refine ⟨?_, ?_, ?_, ?_, ?_⟩ <;>
    norm_num [export_as_png_slices, write_json_companion, intTrunc, cexBox,
      Rat.floor_def']

/-- Claim C2 (amended): for every export, the companion JSON's `"width"`
entry equals the raster's width, but its `"height"` entry equals the
raster's *depth* and its `"depth"` entry equals the raster's *height* — the
two are written under each other's key. -/
theorem C2_json_swaps_height_depth (box : ExportBox) (layers : List ExpLayer)
    (rots : List String) :
    ((export_as_png_slices box layers rots).2.2).width =
      (export_as_png_slices box layers rots).1.width ∧
    ((export_as_png_slices box layers rots).2.2).height =
      (export_as_png_slices box layers rots).1.depth ∧
    ((export_as_png_slices box layers rots).2.2).depth =
      (export_as_png_slices box layers rots).1.height :=
  ⟨rfl, rfl, rfl⟩
